import Mathlib

/-!
Shallow embedding of the token cache of `ProjectXAuth` (src/auth.py), the
component the specification calls TokenCache.  The same logic is duplicated
verbatim in `ProjectXAPI` (src/projectx_api.py), whose `_make_request` guard
is the same expression as `get_token`'s.

Modelling decisions, each traceable to a source line:
  * Time is a natural number of seconds; `datetime.now()` is the field `now`
    of the ambient `World`; `timedelta(hours=24)` is `hours24 = 24*60*60`.
  * A raised Python exception is a `PyExn`: the class name plus the message.
    Both failure branches of `login` raise the bare class `Exception`
    (auth.py lines 99 and 111); a missing dict key raises `KeyError`.
  * The cache file is a `CacheFile`: absent, unparsable (invalid JSON, or an
    `expiry` string `datetime.fromisoformat` rejects), or a parsed JSON
    object whose `token` and `expiry` fields may each be missing.
  * The remote authority's answer is a `NetResponse`: a transport failure
    (`requests.exceptions.RequestException`, which `raise_for_status` also
    produces) or a parsed body with `success`, `token`, `errorMessage`.
  * Python truthiness: `if not self.token` (line 120) is false for `None`
    and for the empty string, captured by `truthy_token`; `if cached:`
    (line 76) always sees a non-empty dict because `_load_cached_token`
    returned a dict containing `expiry`.
  * I/O is counted by `EffectCount` (network calls, disk reads, disk
    writes) so that "no network / no disk I/O" claims are statable.
-/

/-- A raised Python exception: its class name and its message string. -/
structure PyExn where
  exnType : String
  msg : String
deriving DecidableEq

/-- The content of the on-disk cache file `~/.projectx/token.json`.
`invalid` covers a file that `json.load` rejects and a record whose
`expiry` string `datetime.fromisoformat` rejects (both throw inside the
`try` of `_load_cached_token`).  `json tok exp` is a parsed object whose
`token` and `expiry` fields may each be absent (`none`). -/
inductive CacheFile where
  | absent
  | invalid
  | json (token : Option String) (expiry : Option Nat)
deriving DecidableEq

/-- What the remote authority answers to `POST /api/Auth/loginKey`:
either the HTTP call itself fails (`requests.exceptions.RequestException`,
including the non-2xx case raised by `raise_for_status`), or a parsed JSON
body `{success, token?, errorMessage?}` arrives. -/
inductive NetResponse where
  | transportError (s : String)
  | ok (success : Bool) (token : Option String) (errorMessage : Option String)
deriving DecidableEq

/-- The environment a single call runs against: the cache file currently on
disk, the answer the remote authority would give, whether a disk write
would succeed, and the current wall-clock time. -/
structure World where
  file : CacheFile
  response : NetResponse
  canWrite : Bool
  now : Nat
deriving DecidableEq

/-- In-memory state of `ProjectXAuth`: `self.token` and `self.token_expiry`
(auth.py lines 23-24, both `None` after `__init__`). -/
structure AuthState where
  token : Option String
  token_expiry : Option Nat
deriving DecidableEq

/-- Count of I/O actions a call performed: outbound network calls, cache
file reads (attempts, including a failed `open`), cache file writes
(attempts, including a failed `open`/`mkdir`). -/
structure EffectCount where
  netCalls : Nat
  diskReads : Nat
  diskWrites : Nat
deriving DecidableEq

deriving instance DecidableEq for Except

/-- Outcome of a `login`/`get_token` call: the returned token or the raised
exception, the in-memory state afterwards, the cache file afterwards, the
I/O performed, and whether the non-fatal save warning was printed. -/
structure LoginResult where
  result : Except PyExn String
  state : AuthState
  file : CacheFile
  eff : EffectCount
  warned : Bool
deriving DecidableEq

def exnException : String := "Exception"

def exnKeyError : String := "KeyError"

def keyToken : String := "token"

def authFailedPre : String := "Authentication failed: "

def authReqFailedPre : String := "Authentication request failed: "

def unknownErrorMsg : String := "Unknown error"

/-- Seconds in `timedelta(hours=24)` (auth.py line 103). -/
def hours24 : Nat := 24 * 60 * 60

/-- `ProjectXAuth._load_cached_token` (auth.py lines 27-43): `None` when the
file is absent, unparsable, lacks `expiry`, or `now >= expiry`; otherwise
the parsed record — its (possibly missing) `token` field and its expiry. -/
def load_cached_token (now : Nat) : CacheFile → Option (Option String × Nat)
  | CacheFile.absent => none
  | CacheFile.invalid => none
  | CacheFile.json _ none => none
  | CacheFile.json tok (some e) => if e ≤ now then none else some (tok, e)

/-- `ProjectXAuth._save_token` (auth.py lines 45-62): overwrite the cache
file with `{token, expiry}`; on any failure leave the file as it was and
print a warning (the second component records that the warning fired). -/
def save_token (file : CacheFile) (canWrite : Bool) (tok : String) (expiry : Nat) :
    CacheFile × Bool :=
  if canWrite then (CacheFile.json (some tok) (some expiry), false)
  else (file, true)

/-- The remote half of `ProjectXAuth.login` (auth.py lines 81-111), reached
when the cache read yielded nothing.  The `EffectCount` includes the one
disk read the preceding cache attempt performed. -/
def remote_login (st : AuthState) (resp : NetResponse) (canWrite : Bool) (now : Nat)
    (file : CacheFile) : LoginResult :=
  match resp with
  | NetResponse.transportError s =>
      ⟨Except.error ⟨exnException, authReqFailedPre ++ s⟩, st, file, ⟨1, 1, 0⟩, false⟩
  | NetResponse.ok success tokOpt errMsg =>
      if success then
        match tokOpt with
        | some t =>
            let e := now + hours24
            let sv := save_token file canWrite t e
            ⟨Except.ok t, ⟨some t, some e⟩, sv.1, ⟨1, 1, 1⟩, sv.2⟩
        | none =>
            ⟨Except.error ⟨exnKeyError, keyToken⟩, st, file, ⟨1, 1, 0⟩, false⟩
      else
        ⟨Except.error ⟨exnException, authFailedPre ++ errMsg.getD unknownErrorMsg⟩,
          st, file, ⟨1, 1, 0⟩, false⟩

/-- `ProjectXAuth.login` (auth.py lines 64-111).  First the cache read; a
usable record is adopted into memory and returned (a record whose `token`
key is missing makes `cached['token']` raise `KeyError`, line 77, before
any assignment).  Otherwise fall through to the remote login. -/
def login (st : AuthState) (w : World) : LoginResult :=
  match load_cached_token w.now w.file with
  | some (some t, e) =>
      ⟨Except.ok t, ⟨some t, some e⟩, w.file, ⟨0, 1, 0⟩, false⟩
  | some (none, _) =>
      ⟨Except.error ⟨exnKeyError, keyToken⟩, st, w.file, ⟨0, 1, 0⟩, false⟩
  | none => remote_login st w.response w.canWrite w.now w.file

/-- Python truthiness of `self.token`: `None` and `""` are falsy. -/
def truthy_token : Option String → Bool
  | none => false
  | some s => !(s == "")

/-- The guard of `ProjectXAuth.get_token` (auth.py line 120):
`not self.token or (self.token_expiry and datetime.now() >= self.token_expiry)`.
A `datetime` object is always truthy, so the second conjunct is the expiry
comparison whenever `token_expiry` is set and `False` when it is `None`. -/
def needs_login (st : AuthState) (now : Nat) : Bool :=
  !truthy_token st.token ||
    (match st.token_expiry with
     | none => false
     | some e => decide (e ≤ now))

/-- `ProjectXAuth.get_token` (auth.py lines 113-122): log in when the guard
fires, otherwise return the stored token with no I/O at all. -/
def get_token (st : AuthState) (w : World) : LoginResult :=
  if needs_login st w.now then login st w
  else ⟨Except.ok (st.token.getD ("")), st, w.file, ⟨0, 0, 0⟩, false⟩

/-- The cache-file shapes claim C3 calls unreadable or unusable: absent,
invalid JSON, or a parsed object missing the `expiry` field. -/
def cache_unusable (f : CacheFile) : Prop :=
  f = CacheFile.absent ∨ f = CacheFile.invalid ∨ ∃ tk, f = CacheFile.json tk none

/-- A record `_load_cached_token` accepts always has a strictly future
expiry: the `datetime.now() >= expiry` guard rejected everything else. -/
theorem load_cached_token_future (n : Nat) (f : CacheFile) (tk : Option String) (e : Nat)
    (h : load_cached_token n f = some (tk, e)) : n < e := by
  cases f with
  | absent => simp [load_cached_token] at h
  | invalid => simp [load_cached_token] at h
  | json tok exp =>
    cases exp with
    | none => simp [load_cached_token] at h
    | some e' =>
      by_cases hle : e' ≤ n
      · simp [load_cached_token, hle] at h
      · simp [load_cached_token, hle] at h
        omega

/-- When the cache read yields nothing, `login` is exactly its remote half. -/
theorem login_of_cache_miss (st : AuthState) (w : World)
    (h : load_cached_token w.now w.file = none) :
    login st w = remote_login st w.response w.canWrite w.now w.file := by
  simp [login, h]

/-- The remote half's returned value and resulting memory state do not
depend on the cache file it started from, and it always makes exactly one
network call. -/
theorem remote_login_file_indep (st : AuthState) (resp : NetResponse) (cw : Bool) (n : Nat)
    (f f' : CacheFile) :
    (remote_login st resp cw n f).result = (remote_login st resp cw n f').result ∧
      (remote_login st resp cw n f).state = (remote_login st resp cw n f').state ∧
      (remote_login st resp cw n f).eff.netCalls = 1 := by
  cases resp with
  | transportError s => simp [remote_login]
  | ok success tokOpt errMsg =>
    cases success <;> cases tokOpt <;> simp [remote_login, save_token]

/-- Whenever `login` returns a token and leaves an expiry in memory, that
expiry is strictly in the future: an adopted cache record passed the
strictly-future check, and a fresh remote token expires `hours24` later. -/
theorem login_ok_expiry (st : AuthState) (w : World) (t : String) (e : Nat)
    (hok : (login st w).result = Except.ok t)
    (hexp : (login st w).state.token_expiry = some e) : w.now < e := by
  cases hl : load_cached_token w.now w.file with
  | some p =>
    rcases p with ⟨tk, e'⟩
    have hfut : w.now < e' := load_cached_token_future w.now w.file tk e' hl
    cases tk with
    | none => simp [login, hl] at hok
    | some t' =>
      simp [login, hl] at hexp
      omega
  | none =>
    rw [login_of_cache_miss st w hl] at hok hexp
    cases hr : w.response with
    | transportError s =>
      rw [hr] at hok
      simp [remote_login] at hok
    | ok success tokOpt errMsg =>
      rw [hr] at hok hexp
      cases success with
      | false => simp [remote_login] at hok
      | true =>
        cases tokOpt with
        | none => simp [remote_login] at hok
        | some t' =>
          simp [remote_login, hours24] at hexp
          omega

/-- Claim C10: if the in-memory token is set to a non-empty string but the
in-memory expiry is `None`, `get_token` returns the stored token
unconditionally — no expiry check, no disk read, no network call; a token
without a recorded expiry is treated as valid indefinitely. -/
theorem get_token_no_expiry_returns (st : AuthState) (w : World) (t : String)
    (h1 : st.token = some t) (h2 : t ≠ "") (h3 : st.token_expiry = none) :
    get_token st w = ⟨Except.ok t, st, w.file, ⟨0, 0, 0⟩, false⟩ := by
  simp [get_token, needs_login, truthy_token, h1, h2, h3]

/-- Claim C10, witness at a concrete state and world. -/
theorem get_token_no_expiry_returns_witness :
    get_token ⟨some ("t0"), none⟩
        ⟨CacheFile.absent, NetResponse.transportError ("down"), true, 9⟩ =
      ⟨Except.ok ("t0"), ⟨some ("t0"), none⟩, CacheFile.absent, ⟨0, 0, 0⟩, false⟩ :=
  get_token_no_expiry_returns ⟨some ("t0"), none⟩
    ⟨CacheFile.absent, NetResponse.transportError ("down"), true, 9⟩ ("t0")
    rfl (by decide) rfl

/-- Claim C7, counterexample: the claim quantifies over every state whose
token is set and whose expiry is strictly in the future, but the guard
`not self.token` treats the empty string as unset.  With
`token = some ""`, `expiry = 100`, `now = 0` (so the premise "token set,
expiry strictly in the future" holds), the first `get_token` logs in
remotely and the SECOND successive call still reads the cache file from
disk: its effect count is `⟨0, 1, 0⟩`, not `⟨0, 0, 0⟩`, refuting "no
network or disk I/O on the second call". -/
theorem get_token_empty_token_io_cex :
    (get_token ⟨some (""), some 100⟩
        ⟨CacheFile.absent, NetResponse.ok true (some ("")) none, true, 0⟩).state =
      ⟨some (""), some 86400⟩ ∧
      (get_token
          (get_token ⟨some (""), some 100⟩
            ⟨CacheFile.absent, NetResponse.ok true (some ("")) none, true, 0⟩).state
          ⟨(get_token ⟨some (""), some 100⟩
              ⟨CacheFile.absent, NetResponse.ok true (some ("")) none, true, 0⟩).file,
            NetResponse.ok true (some ("")) none, true, 0⟩).eff =
        ⟨0, 1, 0⟩ := by
  decide

/-- Claim C7 as amended: given a valid in-memory token that is a NON-EMPTY
string, with expiry strictly in the future at both calls, two successive
`get_token` calls return the identical stored token, and each (in
particular the second) performs no network and no disk I/O. -/
theorem get_token_idempotent_reuse (st : AuthState) (w w2 : World) (t : String) (e : Nat)
    (h1 : st.token = some t) (h2 : t ≠ "") (h3 : st.token_expiry = some e)
    (h4 : w.now < e) (h5 : w2.now < e) :
    get_token st w = ⟨Except.ok t, st, w.file, ⟨0, 0, 0⟩, false⟩ ∧
      get_token (get_token st w).state w2 = ⟨Except.ok t, st, w2.file, ⟨0, 0, 0⟩, false⟩ := by
  have hfirst : get_token st w = ⟨Except.ok t, st, w.file, ⟨0, 0, 0⟩, false⟩ := by
    simp [get_token, needs_login, truthy_token, h1, h2, h3, Nat.not_le.mpr h4]
  refine ⟨hfirst, ?_⟩
  rw [hfirst]
  simp [get_token, needs_login, truthy_token, h1, h2, h3, Nat.not_le.mpr h5]

/-- Claim C7 as amended, witness at a concrete state and pair of worlds. -/
theorem get_token_idempotent_reuse_witness :
    get_token ⟨some ("tok"), some 100⟩
        ⟨CacheFile.invalid, NetResponse.transportError ("x"), false, 40⟩ =
      ⟨Except.ok ("tok"), ⟨some ("tok"), some 100⟩, CacheFile.invalid, ⟨0, 0, 0⟩, false⟩ :=
  (get_token_idempotent_reuse ⟨some ("tok"), some 100⟩
    ⟨CacheFile.invalid, NetResponse.transportError ("x"), false, 40⟩
    ⟨CacheFile.invalid, NetResponse.transportError ("x"), false, 41⟩
    ("tok") 100 rfl (by decide) rfl (by decide) (by decide)).1

/-- Claim C2: after `_save_token` successfully persists a token with a
strictly future expiry, a freshly constructed instance (token and expiry
both `None`) calling `login` returns that token, adopts the same expiry
into memory, and makes zero network calls. -/
theorem login_cache_roundtrip (f : CacheFile) (t : String) (e : Nat) (w : World)
    (hf : w.file = (save_token f true t e).1) (h : w.now < e) :
    (login ⟨none, none⟩ w).result = Except.ok t ∧
      (login ⟨none, none⟩ w).state = ⟨some t, some e⟩ ∧
      (login ⟨none, none⟩ w).eff.netCalls = 0 := by
  have hfile : w.file = CacheFile.json (some t) (some e) := by
    simpa [save_token] using hf
  simp [login, load_cached_token, hfile, Nat.not_le.mpr h]

/-- Claim C2, witness at a concrete persisted record. -/
theorem login_cache_roundtrip_witness :
    (login ⟨none, none⟩
        ⟨(save_token CacheFile.absent true ("tokA") 100).1,
          NetResponse.transportError ("x"), false, 50⟩).result = Except.ok ("tokA") :=
  (login_cache_roundtrip CacheFile.absent ("tokA") 100
    ⟨(save_token CacheFile.absent true ("tokA") 100).1,
      NetResponse.transportError ("x"), false, 50⟩
    rfl (by decide)).1

/-- Claim C1: (a) `get_token` never returns a token whose expiry timestamp
has passed — whenever it returns a token and an expiry timestamp is
recorded in memory afterwards, the current time is strictly before it;
(b) whenever the in-memory token is absent, or its expiry has been reached
(current time at or past the expiry), `get_token` performs `login` instead
of returning the stored token. -/
theorem get_token_never_expired_and_relogin (st : AuthState) (w : World) :
    (∀ t e, (get_token st w).result = Except.ok t →
        (get_token st w).state.token_expiry = some e → w.now < e) ∧
      ((st.token = none ∨ ∃ e, st.token_expiry = some e ∧ e ≤ w.now) →
        get_token st w = login st w) := by
  constructor
  · intro t e hok hexp
    cases hn : needs_login st w.now with
    | true =>
      have hgt : get_token st w = login st w := by simp [get_token, hn]
      rw [hgt] at hok hexp
      exact login_ok_expiry st w t e hok hexp
    | false =>
      have hgt : get_token st w =
          ⟨Except.ok (st.token.getD ("")), st, w.file, ⟨0, 0, 0⟩, false⟩ := by
        simp [get_token, hn]
      rw [hgt] at hexp
      simp only at hexp
      unfold needs_login at hn
      rw [hexp] at hn
      simp only [Bool.or_eq_false_iff, decide_eq_false_iff_not, Nat.not_le] at hn
      exact hn.2
  · intro h
    have hn : needs_login st w.now = true := by
      rcases h with h | ⟨e, he, hle⟩
      · simp [needs_login, truthy_token, h]
      · simp [needs_login, he, hle]
    simp [get_token, hn]

/-- Claim C1, witness: both parts applied at concrete inputs — a fresh
login at time 0 yields an expiry of 86400, strictly in the future, and a
fresh (token-absent) state makes `get_token` perform `login`. -/
theorem get_token_never_expired_and_relogin_witness :
    (0 : Nat) < 86400 ∧
      get_token ⟨none, none⟩
          ⟨CacheFile.absent, NetResponse.ok true (some ("abc123")) none, true, 0⟩ =
        login ⟨none, none⟩
          ⟨CacheFile.absent, NetResponse.ok true (some ("abc123")) none, true, 0⟩ :=
  ⟨(get_token_never_expired_and_relogin ⟨none, none⟩
      ⟨CacheFile.absent, NetResponse.ok true (some ("abc123")) none, true, 0⟩).1
      ("abc123") 86400 (by decide) (by decide),
    (get_token_never_expired_and_relogin ⟨none, none⟩
      ⟨CacheFile.absent, NetResponse.ok true (some ("abc123")) none, true, 0⟩).2
      (Or.inl rfl)⟩

/-- Claim C3: for every unusable cache file — absent, invalid JSON, or a
JSON object missing the `expiry` field — the cache read yields nothing,
`login` returns the very outcome and memory state it would produce had the
file been absent (so no error from the cache-read step ever reaches the
caller), and it falls through to exactly one remote login call. -/
theorem login_corruption_tolerance (st : AuthState) (w : World) (h : cache_unusable w.file) :
    load_cached_token w.now w.file = none ∧
      (login st w).result =
        (login st ⟨CacheFile.absent, w.response, w.canWrite, w.now⟩).result ∧
      (login st w).state =
        (login st ⟨CacheFile.absent, w.response, w.canWrite, w.now⟩).state ∧
      (login st w).eff.netCalls = 1 := by
  have hl : load_cached_token w.now w.file = none := by
    rcases h with h | h | ⟨tk, h⟩ <;> simp [load_cached_token, h]
  have h1 : login st w = remote_login st w.response w.canWrite w.now w.file :=
    login_of_cache_miss st w hl
  have h2 : login st ⟨CacheFile.absent, w.response, w.canWrite, w.now⟩ =
      remote_login st w.response w.canWrite w.now CacheFile.absent :=
    login_of_cache_miss st ⟨CacheFile.absent, w.response, w.canWrite, w.now⟩ rfl
  have hind := remote_login_file_indep st w.response w.canWrite w.now w.file CacheFile.absent
  exact ⟨hl, by rw [h1, h2]; exact hind.1, by rw [h1, h2]; exact hind.2.1,
    by rw [h1]; exact hind.2.2⟩

/-- Claim C3, witness: a cache file holding a JSON object with a `token`
but no `expiry`, at a concrete world. -/
theorem login_corruption_tolerance_witness :
    load_cached_token 7 (CacheFile.json (some ("t1")) none) = none ∧
      (login ⟨none, none⟩
          ⟨CacheFile.json (some ("t1")) none, NetResponse.ok true (some ("fresh")) none,
            true, 7⟩).result =
        (login ⟨none, none⟩
          ⟨CacheFile.absent, NetResponse.ok true (some ("fresh")) none, true, 7⟩).result ∧
      (login ⟨none, none⟩
          ⟨CacheFile.json (some ("t1")) none, NetResponse.ok true (some ("fresh")) none,
            true, 7⟩).state =
        (login ⟨none, none⟩
          ⟨CacheFile.absent, NetResponse.ok true (some ("fresh")) none, true, 7⟩).state ∧
      (login ⟨none, none⟩
          ⟨CacheFile.json (some ("t1")) none, NetResponse.ok true (some ("fresh")) none,
            true, 7⟩).eff.netCalls = 1 :=
  login_corruption_tolerance ⟨none, none⟩
    ⟨CacheFile.json (some ("t1")) none, NetResponse.ok true (some ("fresh")) none, true, 7⟩
    (Or.inr (Or.inr ⟨some ("t1"), rfl⟩))

/-- Claim C9: whenever `login` raises — credentials rejected, transport
failure, or a `KeyError` on a missing field — the in-memory state is
unchanged: `self.token` and `self.token_expiry` hold the same values after
the failed call as before it. -/
theorem login_error_atomic (st : AuthState) (w : World) (ex : PyExn)
    (h : (login st w).result = Except.error ex) : (login st w).state = st := by
  cases hl : load_cached_token w.now w.file with
  | some p =>
    rcases p with ⟨tk, e'⟩
    cases tk with
    | none => simp [login, hl]
    | some t' => simp [login, hl] at h
  | none =>
    rw [login_of_cache_miss st w hl] at h ⊢
    cases hr : w.response with
    | transportError s => simp [remote_login]
    | ok success tokOpt errMsg =>
      cases success with
      | false => simp [remote_login]
      | true =>
        cases tokOpt with
        | none => simp [remote_login]
        | some t' =>
          rw [hr] at h
          simp [remote_login] at h

/-- Claim C9, witness: a rejected login at a concrete state leaves the
state untouched. -/
theorem login_error_atomic_witness :
    (login ⟨some ("old"), some 5⟩
        ⟨CacheFile.absent, NetResponse.ok false none (some ("no")), true, 10⟩).state =
      ⟨some ("old"), some 5⟩ :=
  login_error_atomic ⟨some ("old"), some 5⟩
    ⟨CacheFile.absent, NetResponse.ok false none (some ("no")), true, 10⟩
    ⟨exnException, authFailedPre ++ ("no")⟩ (by decide)

/-- Claim C4, counterexample: at concrete inputs, a credentials rejection
(`success=false`) and a transport failure both make `login` raise an error
of the very same class, the bare `Exception` (auth.py lines 99 and 111) —
there is no dedicated error type, so the error's type does not let the
caller distinguish the two cases. -/
theorem login_error_same_type_cex :
    (login ⟨none, none⟩
        ⟨CacheFile.absent, NetResponse.ok false none (some ("bad key")), true, 0⟩).result =
      Except.error ⟨("Exception"), ("Authentication failed: bad key")⟩ ∧
      (login ⟨none, none⟩
          ⟨CacheFile.absent, NetResponse.transportError ("timeout"), true, 0⟩).result =
        Except.error ⟨("Exception"), ("Authentication request failed: timeout")⟩ := by
  decide

/-- Claim C4 as amended: when `login` fails on the remote step it raises
the generic `Exception` class in both cases; the caller can distinguish
"credentials rejected" from "transport failure" only by the message text —
rejection messages read `Authentication failed: <errorMessage>`, transport
failures `Authentication request failed: <text>`; both are fatal to the
calling operation (the error propagates out of `login`). -/
theorem login_error_message_distinguish (st : AuthState) (w : World)
    (h : load_cached_token w.now w.file = none) :
    (∀ s, w.response = NetResponse.transportError s →
        (login st w).result = Except.error ⟨exnException, authReqFailedPre ++ s⟩) ∧
      (∀ tk m, w.response = NetResponse.ok false tk m →
        (login st w).result =
          Except.error ⟨exnException, authFailedPre ++ m.getD unknownErrorMsg⟩) := by
  have hL : login st w = remote_login st w.response w.canWrite w.now w.file :=
    login_of_cache_miss st w h
  constructor
  · intro s hs
    rw [hL, hs]
    simp [remote_login]
  · intro tk m hm
    rw [hL, hm]
    simp [remote_login]

/-- Claim C4 as amended, witness: a transport failure at a concrete world
produces the `Exception` with the transport message prefix. -/
theorem login_error_message_distinguish_witness :
    (login ⟨none, none⟩
        ⟨CacheFile.absent, NetResponse.transportError ("down"), true, 3⟩).result =
      Except.error ⟨exnException, authReqFailedPre ++ ("down")⟩ :=
  (login_error_message_distinguish ⟨none, none⟩
    ⟨CacheFile.absent, NetResponse.transportError ("down"), true, 3⟩ rfl).1 ("down") rfl

/-- Claim C5: on a successful remote login with no usable cached token and
a writable disk, `login` returns exactly the issued token, sets the
in-memory expiry to the call time plus 24 hours (`hours24 = 86400`
seconds), and writes a cache record holding that token and that expiry;
and from a fresh state `get_token` performs exactly that `login`. -/
theorem login_fresh_success (st : AuthState) (w : World) (t : String) (m : Option String)
    (h : load_cached_token w.now w.file = none)
    (hr : w.response = NetResponse.ok true (some t) m) (hw : w.canWrite = true) :
    (login st w).result = Except.ok t ∧
      (login st w).state = ⟨some t, some (w.now + hours24)⟩ ∧
      (login st w).file = CacheFile.json (some t) (some (w.now + hours24)) ∧
      get_token ⟨none, none⟩ w = login ⟨none, none⟩ w := by
  have hL : login st w = remote_login st w.response w.canWrite w.now w.file :=
    login_of_cache_miss st w h
  rw [hL, hr, hw]
  refine ⟨by simp [remote_login], by simp [remote_login], by simp [remote_login, save_token], ?_⟩
  simp [get_token, needs_login, truthy_token]

/-- Claim C5, witness: the `abc123` scenario of the specification at
time 0. -/
theorem login_fresh_success_witness :
    (login ⟨none, none⟩
        ⟨CacheFile.absent, NetResponse.ok true (some ("abc123")) none, true, 0⟩).result =
      Except.ok ("abc123") ∧
      (login ⟨none, none⟩
          ⟨CacheFile.absent, NetResponse.ok true (some ("abc123")) none, true, 0⟩).file =
        CacheFile.json (some ("abc123")) (some (0 + hours24)) :=
  ⟨(login_fresh_success ⟨none, none⟩
      ⟨CacheFile.absent, NetResponse.ok true (some ("abc123")) none, true, 0⟩
      ("abc123") none rfl rfl rfl).1,
    (login_fresh_success ⟨none, none⟩
      ⟨CacheFile.absent, NetResponse.ok true (some ("abc123")) none, true, 0⟩
      ("abc123") none rfl rfl rfl).2.2.1⟩

/-- Claim C6: a remote response with `success=false` and an `errorMessage`
makes `login` fail with an error whose message contains that
`errorMessage` text as a substring. -/
theorem login_rejection_message_contains (st : AuthState) (w : World) (m : String)
    (tk : Option String) (h : load_cached_token w.now w.file = none)
    (hr : w.response = NetResponse.ok false tk (some m)) :
    ∃ ex : PyExn, (login st w).result = Except.error ex ∧
      ∃ a b : List Char, ex.msg.data = a ++ m.data ++ b := by
  have hL : login st w = remote_login st w.response w.canWrite w.now w.file :=
    login_of_cache_miss st w h
  refine ⟨⟨exnException, authFailedPre ++ m⟩, ?_, authFailedPre.data, [], ?_⟩
  · rw [hL, hr]
    simp [remote_login]
  · simp

/-- Claim C6, witness: the `bad key` rejection of the specification. -/
theorem login_rejection_message_contains_witness :
    ∃ ex : PyExn,
      (login ⟨none, none⟩
          ⟨CacheFile.absent, NetResponse.ok false none (some ("bad key")), true, 0⟩).result =
        Except.error ex ∧
        ∃ a b : List Char, ex.msg.data = a ++ ("bad key").data ++ b :=
  login_rejection_message_contains ⟨none, none⟩
    ⟨CacheFile.absent, NetResponse.ok false none (some ("bad key")), true, 0⟩
    ("bad key") none rfl rfl

/-- Claim C8: when writing the cache record fails, `login` still succeeds —
it returns the issued token, sets the in-memory token and expiry, leaves
the file as it was, and only the warning is reported; no error reaches the
caller. -/
theorem login_persist_failure_nonfatal (st : AuthState) (w : World) (t : String)
    (m : Option String) (h : load_cached_token w.now w.file = none)
    (hr : w.response = NetResponse.ok true (some t) m) (hw : w.canWrite = false) :
    (login st w).result = Except.ok t ∧
      (login st w).state = ⟨some t, some (w.now + hours24)⟩ ∧
      (login st w).file = w.file ∧
      (login st w).warned = true := by
  have hL : login st w = remote_login st w.response w.canWrite w.now w.file :=
    login_of_cache_miss st w h
  rw [hL, hr, hw]
  exact ⟨by simp [remote_login], by simp [remote_login],
    by simp [remote_login, save_token], by simp [remote_login, save_token]⟩

/-- Claim C8, witness: an unwritable disk at a concrete world still yields
the token, with the warning recorded. -/
theorem login_persist_failure_nonfatal_witness :
    (login ⟨none, none⟩
        ⟨CacheFile.absent, NetResponse.ok true (some ("tokB")) none, false, 2⟩).result =
      Except.ok ("tokB") ∧
      (login ⟨none, none⟩
          ⟨CacheFile.absent, NetResponse.ok true (some ("tokB")) none, false, 2⟩).warned =
        true :=
  ⟨(login_persist_failure_nonfatal ⟨none, none⟩
      ⟨CacheFile.absent, NetResponse.ok true (some ("tokB")) none, false, 2⟩
      ("tokB") none rfl rfl rfl).1,
    (login_persist_failure_nonfatal ⟨none, none⟩
      ⟨CacheFile.absent, NetResponse.ok true (some ("tokB")) none, false, 2⟩
      ("tokB") none rfl rfl rfl).2.2.2⟩
